import Mathlib

/-!
Shallow embedding of the real-time subscription engine of
`bloomberg-terminal-integrations`:

* `BloombergClient` (WebSocket client, subscription registry, tick dispatch)
  from `src/connectors/bloomberg-client.ts`;
* `ExcelConnector` (live workbooks, periodic refresh) from
  `src/connectors/excel/excel-connector.ts`.

Stateful methods become pure functions `State → State × List Effect`:
every externally visible action (a WebSocket send, a subscription-callback
invocation, an event emission, a log line, a timer operation) is recorded
as an `Effect` in the order the source performs it.  JavaScript `Map`s are
embedded as insertion-ordered association lists with `Map` semantics
(`mapSet` overwrites in place, `mapDelete` removes, iteration follows
insertion order).  Machine integers are `Int`/`Nat`; `Date` values are the
epoch-millisecond `Nat` the source constructs them from; subscription
callbacks are identified by their subscription's id, an invocation being
the effect `Effect.callbackInvoke`.
-/

/-- `SecurityIdentifier` from `src/types/bloomberg.types.ts`: `exchange`,
`isin`, `cusip`, `sedol` are optional fields, `securityType` a string
literal union. -/
structure SecurityIdentifier where
  ticker : String
  exchange : Option String := none
  securityType : String := "EQUITY"
  isin : Option String := none
  cusip : Option String := none
  sedol : Option String := none
  deriving DecidableEq, Repr

/-- `MarketDataPoint` from `src/types/bloomberg.types.ts`; numeric fields
are embedded as `Int`, the timestamp as epoch milliseconds. -/
structure MarketDataPoint where
  security : SecurityIdentifier
  timestamp : Nat
  bid : Option Int := none
  ask : Option Int := none
  last : Int
  volume : Int
  open' : Option Int := none
  high : Option Int := none
  low : Option Int := none
  close : Option Int := none
  vwap : Option Int := none
  change : Option Int := none
  changePercent : Option Int := none
  deriving DecidableEq, Repr

/-- `BloombergSubscription`: the `callback` field of the source record is
represented by the subscription's `id`; invoking it is recorded as the
effect `Effect.callbackInvoke id dataPoint`. -/
structure BloombergSubscription where
  id : String
  securities : List SecurityIdentifier
  fields : List String
  deriving DecidableEq, Repr

/-- A successfully JSON-parsed inbound WebSocket message, holding exactly
the fields `handleWebSocketMessage` reads.  `type` is the discriminator;
the market-data fields are only ever read when `type = "marketData"`. -/
structure InMessage where
  type : String
  security : SecurityIdentifier
  timestamp : Nat
  last : Int
  volume : Int
  bid : Option Int := none
  ask : Option Int := none
  open' : Option Int := none
  high : Option Int := none
  low : Option Int := none
  close : Option Int := none
  change : Option Int := none
  changePercent : Option Int := none
  deriving DecidableEq, Repr

/-- Raw WebSocket frame: either text that `JSON.parse` rejects, or a
well-formed message. -/
inductive RawData where
  | malformed (text : String)
  | wellFormed (message : InMessage)
  deriving DecidableEq, Repr

/-- Outbound control messages sent over the WebSocket
(`{type: "subscribe", id, securities, fields}` / `{type: "unsubscribe", id}`). -/
inductive OutMessage where
  | subscribeMsg (id : String) (securities : List SecurityIdentifier) (fields : List String)
  | unsubscribeMsg (id : String)
  deriving DecidableEq, Repr

/-- Externally visible actions, recorded in program order. -/
inductive Effect where
  | wsConnect
  | wsSend (msg : OutMessage)
  | wsClose
  | callbackInvoke (subId : String) (dataPoint : MarketDataPoint)
  | emitConnected
  | emitDisconnected
  | emitError
  | emitMarketData (dataPoint : MarketDataPoint)
  | emitLiveDataUpdate (rangeId : String) (dataPoint : MarketDataPoint)
  | emitWorkbookRefreshed (workbookId : String) (filePath : String)
  | logInfo (msg : String)
  | logWarn (msg : String)
  | logError (msg : String)
  | logDebug (msg : String)
  | scheduleReconnect
  | setIntervalEff (rangeId : String) (period : Nat)
  | clearIntervalEff (rangeId : String)
  | fileWrite (filePath : String) (ok : Bool)
  deriving DecidableEq, Repr

/-- JavaScript `String.prototype.startsWith`, computed on the character
list so that it reduces inside the kernel. -/
def strStartsWith (s pre : String) : Bool :=
  pre.data.isPrefixOf s.data

/-- JavaScript `Map.prototype.set`: overwrite in place if the key is
present, otherwise append (insertion order is preserved). -/
def mapSet (m : List (String × α)) (k : String) (v : α) : List (String × α) :=
  if m.any (fun p => p.1 == k) then
    m.map (fun p => if p.1 == k then (k, v) else p)
  else
    m ++ [(k, v)]

/-- JavaScript `Map.prototype.delete`. -/
def mapDelete (m : List (String × α)) (k : String) : List (String × α) :=
  m.filter (fun p => p.1 != k)

/-- JavaScript `Map.prototype.has`. -/
def mapHas (m : List (String × α)) (k : String) : Bool :=
  m.any (fun p => p.1 == k)

/-- Mutable state of `BloombergClient`: the `subscriptions` map, the
`connected` flag, and whether `wsClient` is defined. -/
structure ClientState where
  subscriptions : List (String × BloombergSubscription) := []
  connected : Bool := false
  wsPresent : Bool := false
  deriving DecidableEq, Repr

namespace BloombergClient

/-- `matchesSecurity` (bloomberg-client.ts:131-138): a tick's security
matches a subscription when some subscription security has the same
`ticker` and the same `exchange` — `===` on the optional `exchange`
field, so an absent exchange is equal only to an absent exchange. -/
def matchesSecurity (security : SecurityIdentifier)
    (subscriptionSecurities : List SecurityIdentifier) : Bool :=
  subscriptionSecurities.any
    (fun sub => sub.ticker == security.ticker && sub.exchange == security.exchange)

/-- The `MarketDataPoint` literal built by `handleWebSocketMessage` from a
parsed message (bloomberg-client.ts:102-115); `vwap` is never assigned. -/
def mkDataPoint (message : InMessage) : MarketDataPoint :=
  { security := message.security
    timestamp := message.timestamp
    last := message.last
    volume := message.volume
    bid := message.bid
    ask := message.ask
    open' := message.open'
    high := message.high
    low := message.low
    close := message.close
    change := message.change
    changePercent := message.changePercent }

/-- `this.subscriptions.forEach(...)` (bloomberg-client.ts:118-122):
iterate the registry in insertion order, invoking each subscription's
callback when its security list matches the tick. -/
def triggerCallbacks (subs : List (String × BloombergSubscription))
    (dataPoint : MarketDataPoint) : List Effect :=
  match subs with
  | [] => []
  | (_, subscription) :: rest =>
      (if matchesSecurity dataPoint.security subscription.securities then
        [Effect.callbackInvoke subscription.id dataPoint]
      else []) ++ triggerCallbacks rest dataPoint

/-- `handleWebSocketMessage` (bloomberg-client.ts:100-126): on
`type = "marketData"` build the data point, fan it out to matching
subscriptions, then emit `marketData`; any other `type` does nothing. -/
def handleWebSocketMessage (s : ClientState) (message : InMessage) :
    ClientState × List Effect :=
  if message.type == "marketData" then
    let dataPoint := mkDataPoint message
    (s, triggerCallbacks s.subscriptions dataPoint ++ [Effect.emitMarketData dataPoint])
  else
    (s, [])

/-- The `message` listener registered by `initializeWebSocket`
(bloomberg-client.ts:73-80): `JSON.parse` failure is caught and logged;
a parsed message goes to `handleWebSocketMessage`. -/
def onWsMessage (s : ClientState) (data : RawData) : ClientState × List Effect :=
  match data with
  | RawData.malformed _ =>
      (s, [Effect.logError "Failed to parse WebSocket message"])
  | RawData.wellFormed message => handleWebSocketMessage s message

/-- Deliver a sequence of raw frames in arrival order, threading the
state and concatenating the effects. -/
def processMessages (s : ClientState) : List RawData → ClientState × List Effect
  | [] => (s, [])
  | d :: rest =>
      let r1 := onWsMessage s d
      let r2 := processMessages r1.1 rest
      (r2.1, r1.2 ++ r2.2)

/-- The `open` listener (bloomberg-client.ts:67-71): set `connected`, log,
emit `connected` — nothing else; in particular no subscription
registration message is sent. -/
def onOpen (s : ClientState) : ClientState × List Effect :=
  ({ s with connected := true },
   [Effect.logInfo "WebSocket connection established", Effect.emitConnected])

/-- The `close` listener (bloomberg-client.ts:87-94): clear `connected`,
log, emit `disconnected`, and unconditionally schedule a reconnect via
`setTimeout(() => this.initializeWebSocket(), 5000)`. -/
def onCloseEvent (s : ClientState) : ClientState × List Effect :=
  ({ s with connected := false },
   [Effect.logWarn "WebSocket connection closed", Effect.emitDisconnected,
    Effect.scheduleReconnect])

/-- `initializeWebSocket` (bloomberg-client.ts:57-95): open a new
WebSocket and install the listeners; the state change visible to the rest
of the class is that `wsClient` is defined again. -/
def initWebSocket (s : ClientState) : ClientState × List Effect :=
  ({ s with wsPresent := true }, [Effect.wsConnect])

/-- `subscribe` (bloomberg-client.ts:216-246).  `now` is the observed
`Date.now()` and `rand` the observed `Math.random().toString(36).substr(2, 9)`
draw; the id is the template literal over both.  The subscription is
stored unconditionally; the registration message is sent only when the
WebSocket exists and `connected` holds. -/
def subscribe (s : ClientState) (now : Nat) (rand : String)
    (securities : List SecurityIdentifier) (fields : List String) :
    ClientState × String × List Effect :=
  let subscriptionId := "sub_" ++ Nat.repr now ++ "_" ++ rand
  let subscription : BloombergSubscription :=
    { id := subscriptionId, securities := securities, fields := fields }
  let s1 := { s with subscriptions := mapSet s.subscriptions subscriptionId subscription }
  let sendEffs :=
    if s.wsPresent && s.connected then
      [Effect.wsSend (OutMessage.subscribeMsg subscriptionId securities fields)]
    else []
  (s1, subscriptionId, sendEffs ++ [Effect.logInfo "Created subscription"])

/-- `unsubscribe` (bloomberg-client.ts:251-266): only when the id is
present, optionally send the unsubscribe control message and delete the
entry; an unknown id does nothing at all. -/
def unsubscribe (s : ClientState) (subscriptionId : String) :
    ClientState × List Effect :=
  if mapHas s.subscriptions subscriptionId then
    let sendEffs :=
      if s.wsPresent && s.connected then
        [Effect.wsSend (OutMessage.unsubscribeMsg subscriptionId)]
      else []
    ({ s with subscriptions := mapDelete s.subscriptions subscriptionId },
     sendEffs ++ [Effect.logInfo "Removed subscription"])
  else
    (s, [])

/-- `this.subscriptions.forEach((_, id) => this.unsubscribe(id))` inside
`disconnect` (bloomberg-client.ts:309): fold `unsubscribe` over the keys
in insertion order. -/
def unsubscribeKeys (s : ClientState) : List String → ClientState × List Effect
  | [] => (s, [])
  | k :: rest =>
      let r1 := unsubscribe s k
      let r2 := unsubscribeKeys r1.1 rest
      (r2.1, r1.2 ++ r2.2)

/-- `disconnect` (bloomberg-client.ts:307-315): if the WebSocket exists,
unsubscribe every registered id, close the socket and drop the handle;
always clear `connected`.  Nothing here disables the `close` listener's
reconnect scheduling. -/
def disconnect (s : ClientState) : ClientState × List Effect :=
  if s.wsPresent then
    let r := unsubscribeKeys s (s.subscriptions.map (fun p => p.1))
    ({ r.1 with wsPresent := false, connected := false },
     r.2 ++ [Effect.wsClose, Effect.logInfo "Disconnected from Bloomberg Terminal"])
  else
    ({ s with connected := false },
     [Effect.logInfo "Disconnected from Bloomberg Terminal"])

/-- `isConnected` (bloomberg-client.ts:320-322). -/
def isConnected (s : ClientState) : Bool :=
  s.connected

end BloombergClient

/-- `LiveDataRange` from `src/types/excel.types.ts`. -/
structure LiveDataRange where
  workbook : String
  worksheet : String
  range : String
  securities : List String
  fields : List String
  updateFrequency : Nat
  deriving DecidableEq, Repr

/-- `ExcelConnectionStatus` from `src/types/excel.types.ts` (the optional
`errors` field is never populated by `getStatus`). -/
structure ExcelConnectionStatus where
  connected : Bool
  lastUpdate : Nat
  activeRanges : Nat
  deriving DecidableEq, Repr

/-- The closure a live-range `setInterval` timer runs:
`refreshLiveWorkbook(workbookId, filePath)` every `period` ms. -/
structure IntervalTask where
  workbookId : String
  filePath : String
  period : Nat
  deriving DecidableEq, Repr

/-- Result of the renderer write `workbook.xlsx.writeFile(filePath)`,
supplied by the environment. -/
inductive WriteResult where
  | ok
  | ioError (msg : String)
  deriving DecidableEq, Repr

/-- Mutable state of `ExcelConnector`: the three maps plus the resolved
`autoRefresh` configuration flag (the workbook objects themselves are
opaque, so `activeWorkbooks` keeps only the keys). -/
structure ExcelState where
  activeWorkbooks : List (String × Unit) := []
  liveRanges : List (String × LiveDataRange) := []
  updateIntervals : List (String × IntervalTask) := []
  autoRefresh : Bool := false
  deriving DecidableEq, Repr

namespace ExcelConnector

open BloombergClient

/-- One iteration of the `ranges.forEach` body in `createLiveWorkbook`
(excel-connector.ts:326-350): store the range under
`workbookId + "_" + worksheet`, subscribe the Bloomberg client to the
range's tickers (each mapped to `{ticker, securityType: "EQUITY"}`, no
exchange), and, when `autoRefresh` is set, start the periodic refresh
timer keyed by the same range id. -/
def setupRange (es : ExcelState) (cs : ClientState) (workbookId filePath : String)
    (range : LiveDataRange) (now : Nat) (rand : String) :
    ExcelState × ClientState × List Effect :=
  let rangeId := workbookId ++ "_" ++ range.worksheet
  let es1 := { es with liveRanges := mapSet es.liveRanges rangeId range }
  let secs := range.securities.map
    (fun ticker => ({ ticker := ticker, securityType := "EQUITY" } : SecurityIdentifier))
  let r := subscribe cs now rand secs range.fields
  if es1.autoRefresh then
    let task : IntervalTask :=
      { workbookId := workbookId, filePath := filePath, period := range.updateFrequency }
    ({ es1 with updateIntervals := mapSet es1.updateIntervals rangeId task },
     r.1,
     r.2.2 ++ [Effect.setIntervalEff rangeId range.updateFrequency])
  else
    (es1, r.1, r.2.2)

/-- Iterate `setupRange` over the supplied ranges; the i-th subscription
observes the environment pair `(envNow i, envRand i)`. -/
def setupRanges (es : ExcelState) (cs : ClientState) (workbookId filePath : String)
    (envNow : Nat → Nat) (envRand : Nat → String) :
    List LiveDataRange → Nat → ExcelState × ClientState × List Effect
  | [], _ => (es, cs, [])
  | range :: rest, i =>
      let r1 := setupRange es cs workbookId filePath range (envNow i) (envRand i)
      let r2 := setupRanges r1.1 r1.2.1 workbookId filePath envNow envRand rest (i + 1)
      (r2.1, r2.2.1, r1.2.2 ++ r2.2.2)

/-- `createLiveWorkbook` (excel-connector.ts:315-357): register the fresh
workbook object, set up every range, log. -/
def createLiveWorkbook (es : ExcelState) (cs : ClientState) (workbookId : String)
    (ranges : List LiveDataRange) (filePath : String)
    (envNow : Nat → Nat) (envRand : Nat → String) :
    ExcelState × ClientState × List Effect :=
  let es0 := { es with activeWorkbooks := mapSet es.activeWorkbooks workbookId () }
  let r := setupRanges es0 cs workbookId filePath envNow envRand ranges 0
  (r.1, r.2.1, r.2.2 ++ [Effect.logInfo "Created live workbook"])

/-- `refreshLiveWorkbook` (excel-connector.ts:369-382).  The whole body is
a `try`: a missing workbook throws inside it, and a failing
`writeFile` rejects inside it; either way the `catch` only logs.  The
third component is the error the method would propagate to its caller —
always `none`. -/
def refreshLiveWorkbook (es : ExcelState) (workbookId filePath : String)
    (write : WriteResult) : ExcelState × List Effect × Option String :=
  if mapHas es.activeWorkbooks workbookId then
    match write with
    | WriteResult.ok =>
        (es,
         [Effect.fileWrite filePath true,
          Effect.logDebug "Refreshed live workbook",
          Effect.emitWorkbookRefreshed workbookId filePath],
         none)
    | WriteResult.ioError _ =>
        (es,
         [Effect.fileWrite filePath false,
          Effect.logError "Failed to refresh live workbook"],
         none)
  else
    (es, [Effect.logError "Failed to refresh live workbook"], none)

/-- `closeLiveWorkbook` (excel-connector.ts:387-400): clear and delete
every interval whose range id starts with the workbook id, delete the
workbook object, log.  `liveRanges` and the Bloomberg client are not
touched. -/
def closeLiveWorkbook (es : ExcelState) (workbookId : String) :
    ExcelState × List Effect :=
  let cleared := es.updateIntervals.filter (fun p => strStartsWith p.1 workbookId)
  ({ es with
      updateIntervals := es.updateIntervals.filter (fun p => !strStartsWith p.1 workbookId)
      activeWorkbooks := mapDelete es.activeWorkbooks workbookId },
   cleared.map (fun p => Effect.clearIntervalEff p.1) ++
     [Effect.logInfo "Closed live workbook"])

/-- `getStatus` (excel-connector.ts:405-411); `now` is the observed
`new Date()`. -/
def getStatus (es : ExcelState) (cs : ClientState) (now : Nat) :
    ExcelConnectionStatus :=
  { connected := isConnected cs
    lastUpdate := now
    activeRanges := es.liveRanges.length }

end ExcelConnector

/-- The control messages among a list of effects, in order. -/
def sentMessages (effs : List Effect) : List OutMessage :=
  effs.filterMap (fun e =>
    match e with
    | Effect.wsSend m => some m
    | _ => none)

/-- Recognize the invocation of subscription `sid`'s callback with data
point `dp`. -/
def isInvocationOf (sid : String) (dp : MarketDataPoint) : Effect → Bool
  | Effect.callbackInvoke i d => decide (i = sid) && decide (d = dp)
  | _ => false

/-- How often subscription `sid`'s callback is invoked with `dp` in a
list of effects. -/
def invocationCount (effs : List Effect) (sid : String) (dp : MarketDataPoint) : Nat :=
  (effs.filter (isInvocationOf sid dp)).length

/-! Concrete fixtures used by witnesses and counterexamples. -/

def secAAPL : SecurityIdentifier :=
  { ticker := "AAPL", exchange := some "NASDAQ" }

def secAAPLBare : SecurityIdentifier :=
  { ticker := "AAPL" }

def secMSFT : SecurityIdentifier :=
  { ticker := "MSFT", exchange := some "NASDAQ" }

def subAAPL : BloombergSubscription :=
  { id := "sub_1_r0", securities := [secAAPL], fields := ["last"] }

/-- A subscription whose security list matches the AAPL tick twice over. -/
def subDouble : BloombergSubscription :=
  { id := "sub_2_r1", securities := [secAAPL, secAAPL], fields := ["last", "bid"] }

def sEmpty : ClientState := {}

def sConn : ClientState :=
  { subscriptions := [("sub_1_r0", subAAPL)], connected := true, wsPresent := true }

def sTwo : ClientState :=
  { subscriptions := [("sub_1_r0", subAAPL), ("sub_2_r1", subDouble)],
    connected := true, wsPresent := true }

def wsConnState : ClientState := { connected := true, wsPresent := true }

def msgAAPL : InMessage :=
  { type := "marketData", security := secAAPL, timestamp := 1700000000000,
    last := 150, volume := 1000 }

def msgHeartbeat : InMessage :=
  { type := "heartbeat", security := secAAPL, timestamp := 0, last := 0, volume := 0 }

def rangeAAPL : LiveDataRange :=
  { workbook := "wb", worksheet := "Sheet1", range := "A1:B2",
    securities := ["AAPL"], fields := ["last"], updateFrequency := 1000 }

def esAuto : ExcelState := { autoRefresh := true }

/-- The system state after `createLiveWorkbook("wb", [rangeAAPL], "out.xlsx")`
on a connected client, the single subscription observing
`Date.now() = 1` and random suffix `"r0"`. -/
def c5Created : ExcelState × ClientState × List Effect :=
  ExcelConnector.createLiveWorkbook esAuto wsConnState "wb" [rangeAAPL] "out.xlsx"
    (fun _ => 1) (fun _ => "r0")

/-- The state after then calling `closeLiveWorkbook("wb")`. -/
def c5Closed : ExcelState × List Effect :=
  ExcelConnector.closeLiveWorkbook c5Created.1 "wb"

/-- Decimal value of a digit-character list; inverse of `Nat.toDigits 10`,
used to prove `Nat.repr` injective. -/
def digitsVal (l : List Char) : Nat :=
  l.foldl (fun a c => a * 10 + (c.toNat - Char.toNat '0')) 0

/-! ### Helper lemmas (shared, not tied to a single claim) -/

theorem mapHas_mapDelete (m : List (String × α)) (k : String) :
    mapHas (mapDelete m k) k = false := by
  simp only [mapHas, mapDelete]
  rw [← Bool.not_eq_true, List.any_eq_true]
  rintro ⟨p, hp, hbeq⟩
  rw [List.mem_filter] at hp
  have hk : p.1 = k := by simpa using hbeq
  simp [hk] at hp

theorem invocationCount_append (l1 l2 : List Effect) (sid : String)
    (dp : MarketDataPoint) :
    invocationCount (l1 ++ l2) sid dp =
      invocationCount l1 sid dp + invocationCount l2 sid dp := by
  simp [invocationCount, List.filter_append]

theorem invocationCount_single_self (sub : BloombergSubscription)
    (dp : MarketDataPoint) :
    invocationCount [Effect.callbackInvoke sub.id dp] sub.id dp = 1 := by
  simp [invocationCount, isInvocationOf]

theorem invocationCount_single_other (i sid : String) (dp : MarketDataPoint)
    (h : i ≠ sid) :
    invocationCount [Effect.callbackInvoke i dp] sid dp = 0 := by
  simp [invocationCount, isInvocationOf, h]

theorem triggerCallbacks_count_zero
    (subs : List (String × BloombergSubscription)) (dp : MarketDataPoint)
    (sid : String) (h : ∀ p ∈ subs, p.2.id ≠ sid) :
    invocationCount (BloombergClient.triggerCallbacks subs dp) sid dp = 0 := by
  induction subs with
  | nil => rfl
  | cons p rest ih =>
      have hp : p.2.id ≠ sid := h p (List.mem_cons_self p rest)
      have hrest : ∀ q ∈ rest, q.2.id ≠ sid := fun q hq => h q (List.mem_cons_of_mem p hq)
      obtain ⟨k, sub⟩ := p
      rw [BloombergClient.triggerCallbacks, invocationCount_append, ih hrest]
      by_cases hm : BloombergClient.matchesSecurity dp.security sub.securities
      · simp only [hm, if_true]
        rw [invocationCount_single_other sub.id sid dp hp]
      · simp [hm, invocationCount]

theorem triggerCallbacks_count
    (subs : List (String × BloombergSubscription)) (dp : MarketDataPoint)
    (k : String) (S : BloombergSubscription)
    (hmem : (k, S) ∈ subs)
    (hnodup : (subs.map (fun p => p.2.id)).Nodup) :
    invocationCount (BloombergClient.triggerCallbacks subs dp) S.id dp =
      if BloombergClient.matchesSecurity dp.security S.securities then 1 else 0 := by
  induction subs with
  | nil => cases hmem
  | cons p rest ih =>
      rw [List.map_cons, List.nodup_cons] at hnodup
      rcases List.mem_cons.mp hmem with heq | hrest
      · -- the head entry is the subscription S itself
        subst heq
        have hz : invocationCount (BloombergClient.triggerCallbacks rest dp) S.id dp = 0 := by
          refine triggerCallbacks_count_zero rest dp S.id fun q hq hid => ?_
          exact hnodup.1 (hid ▸ List.mem_map_of_mem (fun p => p.2.id) hq)
        simp only [BloombergClient.triggerCallbacks]
        rw [invocationCount_append, hz]
        by_cases hm : BloombergClient.matchesSecurity dp.security S.securities
        · simp only [hm, if_true]
          rw [invocationCount_single_self]
        · simp [hm, invocationCount]
      · -- S sits in the tail; the head entry has a different id
        obtain ⟨k', sub⟩ := p
        have hne : sub.id ≠ S.id := by
          intro hid
          exact hnodup.1 (hid ▸ List.mem_map_of_mem (fun p => p.2.id) hrest)
        simp only [BloombergClient.triggerCallbacks]
        rw [invocationCount_append, ih hrest hnodup.2]
        by_cases hm : BloombergClient.matchesSecurity dp.security sub.securities
        · simp only [hm, if_true]
          rw [invocationCount_single_other sub.id S.id dp hne, Nat.zero_add]
        · simp [hm, invocationCount]

/-! ### Claim theorems -/

/-- C2, counterexample: the tick's security and the subscription's
security share the ticker `"AAPL"` and the subscription's security omits
the exchange, so under the claim the match should be decided by ticker
equality alone and succeed; `matchesSecurity` nevertheless returns
`false`, because it compares the optional `exchange` fields with `===`
unconditionally. -/
theorem matchesSecurity_ticker_only_fails :
    secAAPLBare.ticker = secAAPL.ticker ∧
    secAAPLBare.exchange = none ∧
    BloombergClient.matchesSecurity secAAPL [secAAPLBare] = false := by
  refine ⟨rfl, rfl, ?_⟩
  decide

/-- C2, amended: a tick matches a subscription security exactly when the
tickers are equal and the optional exchanges are equal as options — an
absent exchange matches only an absent exchange, never a present one. -/
theorem matchesSecurity_iff_exact (security : SecurityIdentifier)
    (subs : List SecurityIdentifier) :
    BloombergClient.matchesSecurity security subs = true ↔
      ∃ sub ∈ subs,
        sub.ticker = security.ticker ∧ sub.exchange = security.exchange := by
  simp [BloombergClient.matchesSecurity, List.any_eq_true]

/-- C3: for a parsed market-data message, a registered subscription's
callback is invoked exactly once with the constructed data point when its
security list matches the tick's security (even when several of its
securities match), and never when it does not match. -/
theorem dispatch_invokes_exactly_once (s : ClientState) (message : InMessage)
    (k : String) (S : BloombergSubscription)
    (hty : message.type = "marketData")
    (hmem : (k, S) ∈ s.subscriptions)
    (hnodup : (s.subscriptions.map (fun p => p.2.id)).Nodup) :
    invocationCount (BloombergClient.handleWebSocketMessage s message).2 S.id
        (BloombergClient.mkDataPoint message) =
      if BloombergClient.matchesSecurity message.security S.securities then 1
      else 0 := by
  have hdp : (BloombergClient.mkDataPoint message).security = message.security := rfl
  simp only [BloombergClient.handleWebSocketMessage, hty, beq_self_eq_true, if_true]
  rw [invocationCount_append]
  have hlast : invocationCount
      [Effect.emitMarketData (BloombergClient.mkDataPoint message)] S.id
      (BloombergClient.mkDataPoint message) = 0 := by
    simp [invocationCount, isInvocationOf]
  rw [hlast, Nat.add_zero, triggerCallbacks_count s.subscriptions _ k S hmem hnodup, hdp]

/-- C3, witness: in a registry holding `subAAPL` and `subDouble` (whose
security list matches the AAPL tick twice over), the AAPL market-data
message invokes `subDouble`'s callback exactly once. -/
theorem dispatch_invokes_exactly_once_witness :
    invocationCount (BloombergClient.handleWebSocketMessage sTwo msgAAPL).2
        subDouble.id (BloombergClient.mkDataPoint msgAAPL) =
      if BloombergClient.matchesSecurity msgAAPL.security subDouble.securities then 1
      else 0 :=
  dispatch_invokes_exactly_once sTwo msgAAPL "sub_2_r1" subDouble rfl
    (by decide) (by decide)

/-- C6: a raw frame that `JSON.parse` rejects is reported through
`logger.error` and dropped, and the remaining frames are processed
exactly as they would have been without it. -/
theorem malformed_message_dropped (s : ClientState) (text : String)
    (rest : List RawData) :
    BloombergClient.processMessages s (RawData.malformed text :: rest) =
      ((BloombergClient.processMessages s rest).1,
       Effect.logError "Failed to parse WebSocket message" ::
         (BloombergClient.processMessages s rest).2) := by
  simp [BloombergClient.processMessages, BloombergClient.onWsMessage]

/-- C7: `unsubscribe` of an id absent from the registry changes nothing
and sends nothing, and — whatever the starting state — a second
`unsubscribe` of the same id is such a silent no-op. -/
theorem unsubscribe_unknown_silent_noop (s t : ClientState) (sid : String)
    (h : mapHas s.subscriptions sid = false) :
    BloombergClient.unsubscribe s sid = (s, []) ∧
    BloombergClient.unsubscribe (BloombergClient.unsubscribe t sid).1 sid =
      ((BloombergClient.unsubscribe t sid).1, []) := by
  constructor
  · simp [BloombergClient.unsubscribe, h]
  · by_cases ht : mapHas t.subscriptions sid
    · simp [BloombergClient.unsubscribe, ht, mapHas_mapDelete]
    · simp only [Bool.not_eq_true] at ht
      simp [BloombergClient.unsubscribe, ht]

/-- C7, witness: the empty registry rejects `"sub_1_r0"` silently, and
removing `"sub_1_r0"` twice from `sConn` is a no-op the second time. -/
theorem unsubscribe_unknown_silent_noop_witness :
    BloombergClient.unsubscribe sEmpty "sub_1_r0" = (sEmpty, []) ∧
    BloombergClient.unsubscribe (BloombergClient.unsubscribe sConn "sub_1_r0").1
        "sub_1_r0" =
      ((BloombergClient.unsubscribe sConn "sub_1_r0").1, []) :=
  unsubscribe_unknown_silent_noop sEmpty sConn "sub_1_r0" (by decide)

/-- C10: a well-formed message whose `type` is not `"marketData"` is
ignored completely — the state (registry and connection flags) is
unchanged and no effect at all is produced. -/
theorem non_market_data_ignored (s : ClientState) (message : InMessage)
    (h : message.type ≠ "marketData") :
    BloombergClient.handleWebSocketMessage s message = (s, []) := by
  simp [BloombergClient.handleWebSocketMessage, h]

/-- C10, witness: a `"heartbeat"` message leaves the connected one-entry
registry untouched and produces no effects. -/
theorem non_market_data_ignored_witness :
    BloombergClient.handleWebSocketMessage sConn msgHeartbeat = (sConn, []) :=
  non_market_data_ignored sConn msgHeartbeat (by decide)

/-- C1, code evaluation at the failing input: starting from a connected
client with one active subscription, the transport `close` event and the
subsequent reconnect (timer-fired `initializeWebSocket` followed by the
`open` event) keep the subscription registered client-side and restore
`connected`, but send no WebSocket message whatsoever — in particular no
registration message for the surviving subscription, contradicting the
claimed restore-on-reconnect. -/
theorem reconnect_sends_no_registration :
    (BloombergClient.onCloseEvent sConn).1.subscriptions = sConn.subscriptions ∧
    sentMessages (BloombergClient.onCloseEvent sConn).2 = [] ∧
    (BloombergClient.onOpen
        (BloombergClient.initWebSocket (BloombergClient.onCloseEvent sConn).1).1).1.subscriptions
      = sConn.subscriptions ∧
    (BloombergClient.onOpen
        (BloombergClient.initWebSocket (BloombergClient.onCloseEvent sConn).1).1).1.connected
      = true ∧
    sentMessages
        ((BloombergClient.initWebSocket (BloombergClient.onCloseEvent sConn).1).2 ++
          (BloombergClient.onOpen
            (BloombergClient.initWebSocket (BloombergClient.onCloseEvent sConn).1).1).2)
      = [] := by
  decide

/-- C4, code evaluation at the failing input: `disconnect()` on a
connected client closes the socket, but the socket's `close` listener
still fires and unconditionally schedules the reconnect timer; when that
timer runs `initializeWebSocket` and the new socket opens, the client is
connected again.  Nothing in `disconnect` suppresses the timer. -/
theorem disconnect_then_reconnects :
    Effect.scheduleReconnect ∈
      (BloombergClient.onCloseEvent (BloombergClient.disconnect sConn).1).2 ∧
    (BloombergClient.onOpen
        (BloombergClient.initWebSocket
          (BloombergClient.onCloseEvent (BloombergClient.disconnect sConn).1).1).1).1.connected
      = true := by
  decide

/-- C5, code evaluation at the failing input: after
`createLiveWorkbook("wb", [rangeAAPL], "out.xlsx")` the connector reports
one active range and the client holds one subscription;
`closeLiveWorkbook("wb")` leaves `liveRanges` — and hence
`getStatus().activeRanges` — unchanged at 1, and sends no unsubscribe
message for the range's feed (the subscription id was discarded at
creation, so it cannot be unsubscribed). -/
theorem close_live_workbook_leaks_range_and_feed :
    (ExcelConnector.getStatus c5Created.1 c5Created.2.1 0).activeRanges = 1 ∧
    c5Created.2.1.subscriptions.length = 1 ∧
    (ExcelConnector.getStatus c5Closed.1 c5Created.2.1 0).activeRanges = 1 ∧
    c5Closed.1.liveRanges = c5Created.1.liveRanges ∧
    sentMessages c5Closed.2 = [] := by
  decide

/-- C8: when the periodic flush's `writeFile` fails, `refreshLiveWorkbook`
leaves the connector state (in particular `updateIntervals`) unchanged,
propagates no error to its caller, reports the failure via
`logger.error`, and cancels no timer — so the interval fires again and
retries. -/
theorem refresh_write_failure_is_caught (es : ExcelState)
    (workbookId filePath m : String) :
    (ExcelConnector.refreshLiveWorkbook es workbookId filePath
        (WriteResult.ioError m)).1 = es ∧
    (ExcelConnector.refreshLiveWorkbook es workbookId filePath
        (WriteResult.ioError m)).2.2 = none ∧
    Effect.logError "Failed to refresh live workbook" ∈
      (ExcelConnector.refreshLiveWorkbook es workbookId filePath
        (WriteResult.ioError m)).2.1 ∧
    ∀ rangeId, Effect.clearIntervalEff rangeId ∉
      (ExcelConnector.refreshLiveWorkbook es workbookId filePath
        (WriteResult.ioError m)).2.1 := by
  by_cases h : mapHas es.activeWorkbooks workbookId <;>
    simp [ExcelConnector.refreshLiveWorkbook, h]

/-! ### Lemmas on decimal rendering, for the subscription-id claims -/

theorem toDigitsCore_acc (b : Nat) :
    ∀ (f n : Nat) (acc : List Char),
      Nat.toDigitsCore b f n acc = Nat.toDigitsCore b f n [] ++ acc := by
  intro f
  induction f with
  | zero => intro n acc; rfl
  | succ f ih =>
      intro n acc
      simp only [Nat.toDigitsCore]
      by_cases h : n / b = 0
      · simp [h]
      · simp only [h, if_false]
        rw [ih (n / b) (Nat.digitChar (n % b) :: acc),
            ih (n / b) [Nat.digitChar (n % b)], List.append_assoc]
        rfl

theorem digitChar_ne_underscore : ∀ d, d < 10 → Nat.digitChar d ≠ '_' := by
  decide

theorem charVal_digitChar : ∀ d, d < 10 →
    (Nat.digitChar d).toNat - Char.toNat '0' = d := by
  decide

theorem toDigitsCore_no_underscore :
    ∀ (f n : Nat) (acc : List Char),
      '_' ∉ acc → '_' ∉ Nat.toDigitsCore 10 f n acc := by
  intro f
  induction f with
  | zero => intro n acc h; exact h
  | succ f ih =>
      intro n acc hacc
      have hd : Nat.digitChar (n % 10) ≠ '_' :=
        digitChar_ne_underscore (n % 10) (Nat.mod_lt n (by norm_num))
      have hcons : '_' ∉ Nat.digitChar (n % 10) :: acc := by
        intro hmem
        rcases List.mem_cons.mp hmem with h1 | h2
        · exact hd h1.symm
        · exact hacc h2
      simp only [Nat.toDigitsCore]
      by_cases h : n / 10 = 0
      · simpa [h] using hcons
      · simpa [h] using ih (n / 10) (Nat.digitChar (n % 10) :: acc) hcons

theorem repr_no_underscore (n : Nat) : '_' ∉ (Nat.repr n).data :=
  toDigitsCore_no_underscore (n + 1) n [] (by simp)

theorem digitsVal_append_single (l : List Char) (c : Char) :
    digitsVal (l ++ [c]) = digitsVal l * 10 + (c.toNat - Char.toNat '0') := by
  simp [digitsVal, List.foldl_append]

theorem digitsVal_toDigitsCore :
    ∀ f n, n < f → digitsVal (Nat.toDigitsCore 10 f n []) = n := by
  intro f
  induction f with
  | zero => intro n h; exact absurd h (Nat.not_lt_zero n)
  | succ f ih =>
      intro n h
      simp only [Nat.toDigitsCore]
      by_cases h0 : n / 10 = 0
      · have hn : n < 10 := by omega
        have hv := charVal_digitChar (n % 10) (Nat.mod_lt n (by norm_num))
        simp only [h0, if_true]
        simp only [digitsVal, List.foldl_cons, List.foldl_nil]
        rw [Nat.zero_mul, Nat.zero_add, hv]
        omega
      · simp only [h0, if_false]
        rw [toDigitsCore_acc, digitsVal_append_single, ih (n / 10) (by omega),
            charVal_digitChar (n % 10) (Nat.mod_lt n (by norm_num))]
        omega

theorem str_data_append (a b : String) : (a ++ b).data = a.data ++ b.data := by
  cases a; cases b; rfl

theorem str_ext (a b : String) (h : a.data = b.data) : a = b := by
  cases a; cases b; exact congrArg String.mk h

theorem repr_injective (m n : Nat) (h : Nat.repr m = Nat.repr n) : m = n := by
  have hdata : (Nat.repr m).data = (Nat.repr n).data := by rw [h]
  have hm : digitsVal (Nat.repr m).data = m :=
    digitsVal_toDigitsCore (m + 1) m (Nat.lt_succ_self m)
  have hn : digitsVal (Nat.repr n).data = n :=
    digitsVal_toDigitsCore (n + 1) n (Nat.lt_succ_self n)
  rw [← hm, ← hn, hdata]

theorem append_sep_inj :
    ∀ (l1 l2 r1 r2 : List Char), '_' ∉ l1 → '_' ∉ l2 →
      l1 ++ '_' :: r1 = l2 ++ '_' :: r2 → l1 = l2 ∧ r1 = r2 := by
  intro l1
  induction l1 with
  | nil =>
      intro l2 r1 r2 _ h2 heq
      cases l2 with
      | nil => simpa using heq
      | cons c l2' =>
          have hc : '_' = c := by
            have := congrArg (fun l => l.head?) heq
            simpa using this
          exact absurd (by simp [← hc]) h2
  | cons a l1' ih =>
      intro l2 r1 r2 h1 h2 heq
      cases l2 with
      | nil =>
          have hc : a = '_' := by
            have := congrArg (fun l => l.head?) heq
            simpa using this
          exact absurd (by simp [hc]) h1
      | cons b l2' =>
          have hab : a = b ∧ l1' ++ '_' :: r1 = l2' ++ '_' :: r2 := by
            simpa using heq
          have h1' : '_' ∉ l1' := fun hm => h1 (List.mem_cons_of_mem a hm)
          have h2' : '_' ∉ l2' := fun hm => h2 (List.mem_cons_of_mem b hm)
          obtain ⟨hl, hr⟩ := ih l2' r1 r2 h1' h2' hab.2
          exact ⟨by rw [hab.1, hl], hr⟩

/-- C9, counterexample: two distinct `subscribe` calls — different
registry states, securities and fields — that observe the same
`Date.now()` millisecond and the same `Math.random()` draw are issued the
same identifier, so an identifier can be issued twice within one process
lifetime. -/
theorem subscribe_id_reissued :
    (BloombergClient.subscribe sEmpty 5 "abc123def" [secAAPL] ["last"]).2.1 =
      (BloombergClient.subscribe sConn 5 "abc123def" [secMSFT] ["bid"]).2.1 :=
  rfl

/-- C9, amended: identifiers returned by two `subscribe` calls are
distinct whenever the observed `Date.now()` values or the observed random
suffixes differ; only a call that repeats both the millisecond timestamp
and the random draw of an earlier call is issued the same identifier
again. -/
theorem subscribe_ids_distinct (s1 s2 : ClientState) (now1 now2 : Nat)
    (r1 r2 : String) (secs1 secs2 : List SecurityIdentifier)
    (f1 f2 : List String)
    (hne : now1 ≠ now2 ∨ r1 ≠ r2) :
    (BloombergClient.subscribe s1 now1 r1 secs1 f1).2.1 ≠
      (BloombergClient.subscribe s2 now2 r2 secs2 f2).2.1 := by
  intro h
  have hid : ("sub_" ++ Nat.repr now1 ++ "_" ++ r1 : String)
      = "sub_" ++ Nat.repr now2 ++ "_" ++ r2 := h
  have hdata := congrArg String.data hid
  rw [str_data_append, str_data_append, str_data_append,
      str_data_append, str_data_append, str_data_append] at hdata
  have hsub : ("sub_" : String).data = ['s', 'u', 'b', '_'] := rfl
  have hsep : ("_" : String).data = ['_'] := rfl
  rw [hsub, hsep, List.append_assoc, List.append_assoc,
      List.append_assoc, List.append_assoc] at hdata
  simp only [List.cons_append, List.nil_append, List.cons.injEq, true_and] at hdata
  have hdecomp := append_sep_inj (Nat.repr now1).data (Nat.repr now2).data
    r1.data r2.data (repr_no_underscore now1) (repr_no_underscore now2)
    (by simpa using hdata)
  rcases hne with hn | hr
  · exact hn (repr_injective now1 now2 (str_ext _ _ hdecomp.1))
  · exact hr (str_ext _ _ hdecomp.2)

/-- C9 amended, witness: with the same random suffix but timestamps 5 and
6 the two issued identifiers differ. -/
theorem subscribe_ids_distinct_witness :
    (BloombergClient.subscribe sEmpty 5 "abc123def" [secAAPL] ["last"]).2.1 ≠
      (BloombergClient.subscribe sConn 6 "abc123def" [secMSFT] ["bid"]).2.1 :=
  subscribe_ids_distinct sEmpty sConn 5 6 "abc123def" "abc123def"
    [secAAPL] [secMSFT] ["last"] ["bid"] (Or.inl (by decide))
